import Mathlib

/-
  Verification development for the chat request types and the polymorphic
  model types of this repository.

  The request structs (KickChatMember, UnbanChatMember, ..., in
  src/api/types/chat.rs) are embedded as Lean structures; their derived
  serde JSON serializers and deserializers are embedded as explicit
  encode and decode functions over a JSON value type.  Field order, the
  skip-when-absent attribute on optional fields, the default attribute on
  only_if_banned, and the treatment of unknown and missing keys follow
  the derive semantics of serde with serde_json.
-/

/-- A JSON value.  Numbers are modelled as integers, which covers every
field type used by the request structs (i64 and i32 fields). -/
inductive Json where
  | null
  | bool (b : Bool)
  | int (n : Int)
  | str (s : String)
  | arr (elems : List Json)
  | obj (members : List (String × Json))

/-- Looks up a key in a JSON value: the first binding of the key when the
value is an object, and none otherwise. -/
def Json.lookupKey : Json → String → Option Json
  | .obj l, k => List.lookup k l
  | _, _ => none

/-- Serialization of an optional struct field marked with the
skip-when-absent serde attribute: an absent field contributes no entry,
a present field contributes one key-value entry. -/
def optEntry (k : String) (f : α → Json) : Option α → List (String × Json)
  | some a => [(k, f a)]
  | none => []

/-- Serialization of an optional value without the skip attribute: the
value itself when present, an explicit JSON null when absent. -/
def jsonOpt (f : α → Json) : Option α → Json
  | some a => f a
  | none => .null

/-- Whether an Except result is an error. -/
def isErr : Except String α → Bool
  | .error _ => true
  | .ok _ => false

/-- Deserialization of a required integer field: the key must be present
and hold an integer. -/
def reqInt (l : List (String × Json)) (k : String) : Except String Int :=
  match List.lookup k l with
  | some (.int n) => .ok n
  | some _ => .error ("invalid type for field " ++ k)
  | none => .error ("missing field " ++ k)

/-- Deserialization of a required string field. -/
def reqStr (l : List (String × Json)) (k : String) : Except String String :=
  match List.lookup k l with
  | some (.str s) => .ok s
  | some _ => .error ("invalid type for field " ++ k)
  | none => .error ("missing field " ++ k)

/-- Deserialization of a required boolean field. -/
def reqBool (l : List (String × Json)) (k : String) : Except String Bool :=
  match List.lookup k l with
  | some (.bool b) => .ok b
  | some _ => .error ("invalid type for field " ++ k)
  | none => .error ("missing field " ++ k)

/-- Deserialization of an optional integer field: a missing key or an
explicit null both give the absent value. -/
def optInt (l : List (String × Json)) (k : String) : Except String (Option Int) :=
  match List.lookup k l with
  | some (.int n) => .ok (some n)
  | some .null => .ok none
  | some _ => .error ("invalid type for field " ++ k)
  | none => .ok none

/-- Deserialization of an optional string field. -/
def optStr (l : List (String × Json)) (k : String) : Except String (Option String) :=
  match List.lookup k l with
  | some (.str s) => .ok (some s)
  | some .null => .ok none
  | some _ => .error ("invalid type for field " ++ k)
  | none => .ok none

/-- Deserialization of an optional boolean field. -/
def optBool (l : List (String × Json)) (k : String) : Except String (Option Bool) :=
  match List.lookup k l with
  | some (.bool b) => .ok (some b)
  | some .null => .ok none
  | some _ => .error ("invalid type for field " ++ k)
  | none => .ok none

/-- Deserialization of a boolean field carrying the serde default
attribute: a missing key yields the default boolean, false. -/
def defBool (l : List (String × Json)) (k : String) : Except String Bool :=
  match List.lookup k l with
  | some (.bool b) => .ok b
  | some _ => .error ("invalid type for field " ++ k)
  | none => .ok false

/-- Request struct for the kick_chat_member API call
(src/api/types/chat.rs).  The two date and flag fields are optional and
marked skip-when-absent. -/
structure KickChatMember where
  chat_id : Int
  user_id : Int
  until_date : Option Int
  revoke_messages : Option Bool
deriving DecidableEq

/-- Derived serde serializer of KickChatMember. -/
def KickChatMember.encode (x : KickChatMember) : Json :=
  .obj (("chat_id", .int x.chat_id) :: ("user_id", .int x.user_id) ::
    (optEntry "until_date" Json.int x.until_date ++
      optEntry "revoke_messages" Json.bool x.revoke_messages))

/-- Derived serde deserializer of KickChatMember. -/
def KickChatMember.decode : Json → Except String KickChatMember
  | .obj l => do
    let c ← reqInt l "chat_id"
    let u ← reqInt l "user_id"
    let d ← optInt l "until_date"
    let r ← optBool l "revoke_messages"
    pure ⟨c, u, d, r⟩
  | _ => .error "expected object"

/-- Request struct for the unban_chat_member API call.  The
only_if_banned field is a plain boolean with the serde default
attribute: it is always serialized and defaults to false when missing. -/
structure UnbanChatMember where
  chat_id : Int
  user_id : Int
  only_if_banned : Bool
deriving DecidableEq

/-- Derived serde serializer of UnbanChatMember. -/
def UnbanChatMember.encode (x : UnbanChatMember) : Json :=
  .obj [("chat_id", .int x.chat_id), ("user_id", .int x.user_id),
    ("only_if_banned", .bool x.only_if_banned)]

/-- Derived serde deserializer of UnbanChatMember. -/
def UnbanChatMember.decode : Json → Except String UnbanChatMember
  | .obj l => do
    let c ← reqInt l "chat_id"
    let u ← reqInt l "user_id"
    let b ← defBool l "only_if_banned"
    pure ⟨c, u, b⟩
  | _ => .error "expected object"

/-- Modelled from the spec: the ChatPermissions model type is declared in
the chat model module, which is not part of the included sources; the
spec describes it as the set of chat permission flags attached to a chat
or to a restricted member.  It is modelled as a record of optional
boolean permission flags, serialized like every other optional flag
field: absent flags are omitted. -/
structure ChatPermissions where
  can_send_messages : Option Bool
  can_send_media_messages : Option Bool
  can_send_polls : Option Bool
  can_send_other_messages : Option Bool
  can_add_web_page_previews : Option Bool
  can_change_info : Option Bool
  can_invite_users : Option Bool
  can_pin_messages : Option Bool
deriving DecidableEq

/-- Serializer of ChatPermissions: optional flags, absent ones omitted. -/
def ChatPermissions.encode (p : ChatPermissions) : Json :=
  .obj (optEntry "can_send_messages" Json.bool p.can_send_messages ++
    (optEntry "can_send_media_messages" Json.bool p.can_send_media_messages ++
      (optEntry "can_send_polls" Json.bool p.can_send_polls ++
        (optEntry "can_send_other_messages" Json.bool p.can_send_other_messages ++
          (optEntry "can_add_web_page_previews" Json.bool p.can_add_web_page_previews ++
            (optEntry "can_change_info" Json.bool p.can_change_info ++
              (optEntry "can_invite_users" Json.bool p.can_invite_users ++
                optEntry "can_pin_messages" Json.bool p.can_pin_messages)))))))

/-- Deserializer of ChatPermissions. -/
def ChatPermissions.decode : Json → Except String ChatPermissions
  | .obj l => do
    let a ← optBool l "can_send_messages"
    let b ← optBool l "can_send_media_messages"
    let c ← optBool l "can_send_polls"
    let d ← optBool l "can_send_other_messages"
    let e ← optBool l "can_add_web_page_previews"
    let f ← optBool l "can_change_info"
    let g ← optBool l "can_invite_users"
    let h ← optBool l "can_pin_messages"
    pure ⟨a, b, c, d, e, f, g, h⟩
  | _ => .error "expected object"

/-- Deserialization of a required ChatPermissions field. -/
def reqPerm (l : List (String × Json)) (k : String) : Except String ChatPermissions :=
  match List.lookup k l with
  | some j => ChatPermissions.decode j
  | none => .error ("missing field " ++ k)

/-- Modelled from the spec: the InputFile abstraction is declared outside
the included sources; the spec describes it as a file path, a byte
buffer, or a remote file id, where multipart encoding is delegated to the
transport collaborator.  The byte buffer contents are modelled as a
string of bytes, and the wire form, which the spec leaves to the
transport layer, is modelled as a deterministic tagged encoding. -/
inductive InputFile where
  | filePathOf (path : String)
  | bytesOf (data : String)
  | fileIdOf (id : String)
deriving DecidableEq

/-- Serializer of the modelled InputFile. -/
def InputFile.encode : InputFile → Json
  | .filePathOf p => .obj [("path", .str p)]
  | .bytesOf d => .obj [("bytes", .str d)]
  | .fileIdOf i => .str i

/-- Deserializer of the modelled InputFile. -/
def InputFile.decode : Json → Except String InputFile
  | .str i => .ok (.fileIdOf i)
  | .obj [("path", .str p)] => .ok (.filePathOf p)
  | .obj [("bytes", .str d)] => .ok (.bytesOf d)
  | _ => .error "invalid input file"

/-- Deserialization of a required InputFile field. -/
def reqFile (l : List (String × Json)) (k : String) : Except String InputFile :=
  match List.lookup k l with
  | some j => InputFile.decode j
  | none => .error ("missing field " ++ k)

/-- Request struct for the restrict_chat_member API call.  The until_date
field holds an optional date, serialized through the unix date formatting
helper as a unix timestamp (the helper lives outside the included
sources; dates are modelled as unix seconds), and is marked
skip-when-absent. -/
structure RestrictChatMember where
  chat_id : Int
  user_id : Int
  permissions : ChatPermissions
  until_date : Option Int
deriving DecidableEq

/-- Derived serde serializer of RestrictChatMember. -/
def RestrictChatMember.encode (x : RestrictChatMember) : Json :=
  .obj (("chat_id", .int x.chat_id) :: ("user_id", .int x.user_id) ::
    ("permissions", x.permissions.encode) ::
    optEntry "until_date" Json.int x.until_date)

/-- Derived serde deserializer of RestrictChatMember. -/
def RestrictChatMember.decode : Json → Except String RestrictChatMember
  | .obj l => do
    let c ← reqInt l "chat_id"
    let u ← reqInt l "user_id"
    let p ← reqPerm l "permissions"
    let d ← optInt l "until_date"
    pure ⟨c, u, p, d⟩
  | _ => .error "expected object"

/-- Request struct for the promote_chat_member API call: chat and user
ids plus eleven optional administrator permission flags, all marked
skip-when-absent.  Field order follows the struct declaration, with
can_manage_chat declared last. -/
structure PromoteChatMember where
  chat_id : Int
  user_id : Int
  is_anonymous : Option Bool
  can_post_messages : Option Bool
  can_edit_messages : Option Bool
  can_delete_messages : Option Bool
  can_restrict_members : Option Bool
  can_promote_members : Option Bool
  can_change_info : Option Bool
  can_invite_users : Option Bool
  can_pin_messages : Option Bool
  can_manage_voice_chats : Option Bool
  can_manage_chat : Option Bool
deriving DecidableEq

/-- The serialized fields of PromoteChatMember, in declaration order,
with absent optional flags omitted. -/
def PromoteChatMember.encodeFields (x : PromoteChatMember) : List (String × Json) :=
  ("chat_id", .int x.chat_id) :: ("user_id", .int x.user_id) ::
    (optEntry "is_anonymous" Json.bool x.is_anonymous ++
      (optEntry "can_post_messages" Json.bool x.can_post_messages ++
        (optEntry "can_edit_messages" Json.bool x.can_edit_messages ++
          (optEntry "can_delete_messages" Json.bool x.can_delete_messages ++
            (optEntry "can_restrict_members" Json.bool x.can_restrict_members ++
              (optEntry "can_promote_members" Json.bool x.can_promote_members ++
                (optEntry "can_change_info" Json.bool x.can_change_info ++
                  (optEntry "can_invite_users" Json.bool x.can_invite_users ++
                    (optEntry "can_pin_messages" Json.bool x.can_pin_messages ++
                      (optEntry "can_manage_voice_chats" Json.bool x.can_manage_voice_chats ++
                        optEntry "can_manage_chat" Json.bool x.can_manage_chat))))))))))

/-- Derived serde serializer of PromoteChatMember. -/
def PromoteChatMember.encode (x : PromoteChatMember) : Json :=
  .obj x.encodeFields

/-- Derived serde deserializer of PromoteChatMember. -/
def PromoteChatMember.decode : Json → Except String PromoteChatMember
  | .obj l => do
    let c ← reqInt l "chat_id"
    let u ← reqInt l "user_id"
    let o1 ← optBool l "is_anonymous"
    let o2 ← optBool l "can_post_messages"
    let o3 ← optBool l "can_edit_messages"
    let o4 ← optBool l "can_delete_messages"
    let o5 ← optBool l "can_restrict_members"
    let o6 ← optBool l "can_promote_members"
    let o7 ← optBool l "can_change_info"
    let o8 ← optBool l "can_invite_users"
    let o9 ← optBool l "can_pin_messages"
    let o10 ← optBool l "can_manage_voice_chats"
    let o11 ← optBool l "can_manage_chat"
    pure ⟨c, u, o1, o2, o3, o4, o5, o6, o7, o8, o9, o10, o11⟩
  | _ => .error "expected object"

/-- Constructor mirroring PromoteChatMember::new from the source: fixes
the chat and user ids and sets every optional flag to absent. -/
def PromoteChatMember.new (chat_id : Int) (user_id : Int) : PromoteChatMember :=
  ⟨chat_id, user_id, none, none, none, none, none, none, none, none, none, none, none⟩

/-- Request struct for the set_chat_administrator_custom_title API call.
The comment in the source documents a 0 to 16 character limit on the
custom title, but no local validation is performed. -/
structure SetChatAdministratorCustomTitle where
  chat_id : Int
  user_id : Int
  custom_title : String
deriving DecidableEq

/-- Derived serde serializer of SetChatAdministratorCustomTitle. -/
def SetChatAdministratorCustomTitle.encode (x : SetChatAdministratorCustomTitle) : Json :=
  .obj [("chat_id", .int x.chat_id), ("user_id", .int x.user_id),
    ("custom_title", .str x.custom_title)]

/-- Derived serde deserializer of SetChatAdministratorCustomTitle. -/
def SetChatAdministratorCustomTitle.decode : Json → Except String SetChatAdministratorCustomTitle
  | .obj l => do
    let c ← reqInt l "chat_id"
    let u ← reqInt l "user_id"
    let t ← reqStr l "custom_title"
    pure ⟨c, u, t⟩
  | _ => .error "expected object"

/-- Request struct for the set_chat_permissions API call. -/
structure SetChatPermissions where
  chat_id : Int
  permissions : ChatPermissions
deriving DecidableEq

/-- Derived serde serializer of SetChatPermissions. -/
def SetChatPermissions.encode (x : SetChatPermissions) : Json :=
  .obj [("chat_id", .int x.chat_id), ("permissions", x.permissions.encode)]

/-- Derived serde deserializer of SetChatPermissions. -/
def SetChatPermissions.decode : Json → Except String SetChatPermissions
  | .obj l => do
    let c ← reqInt l "chat_id"
    let p ← reqPerm l "permissions"
    pure ⟨c, p⟩
  | _ => .error "expected object"

/-- Request struct for the export_chat_invite_link API call: only a chat
id. -/
structure ExportChatInviteLink where
  chat_id : Int
deriving DecidableEq

/-- Derived serde serializer of ExportChatInviteLink. -/
def ExportChatInviteLink.encode (x : ExportChatInviteLink) : Json :=
  .obj [("chat_id", .int x.chat_id)]

/-- Derived serde deserializer of ExportChatInviteLink. -/
def ExportChatInviteLink.decode : Json → Except String ExportChatInviteLink
  | .obj l => do
    let c ← reqInt l "chat_id"
    pure ⟨c⟩
  | _ => .error "expected object"

/-- Request struct for the set_chat_photo API call. -/
structure SetChatPhoto where
  chat_id : Int
  photo : InputFile
deriving DecidableEq

/-- Derived serde serializer of SetChatPhoto. -/
def SetChatPhoto.encode (x : SetChatPhoto) : Json :=
  .obj [("chat_id", .int x.chat_id), ("photo", x.photo.encode)]

/-- Derived serde deserializer of SetChatPhoto. -/
def SetChatPhoto.decode : Json → Except String SetChatPhoto
  | .obj l => do
    let c ← reqInt l "chat_id"
    let p ← reqFile l "photo"
    pure ⟨c, p⟩
  | _ => .error "expected object"

/-- Request struct for the delete_chat_photo API call: only a chat id. -/
structure DeleteChatPhoto where
  chat_id : Int
deriving DecidableEq

/-- Derived serde serializer of DeleteChatPhoto. -/
def DeleteChatPhoto.encode (x : DeleteChatPhoto) : Json :=
  .obj [("chat_id", .int x.chat_id)]

/-- Derived serde deserializer of DeleteChatPhoto. -/
def DeleteChatPhoto.decode : Json → Except String DeleteChatPhoto
  | .obj l => do
    let c ← reqInt l "chat_id"
    pure ⟨c⟩
  | _ => .error "expected object"

/-- Request struct for the set_chat_title API call.  The comment in the
source documents a 1 to 255 character limit on the title, but no local
validation is performed. -/
structure SetChatTitle where
  chat_id : Int
  title : String
deriving DecidableEq

/-- Derived serde serializer of SetChatTitle. -/
def SetChatTitle.encode (x : SetChatTitle) : Json :=
  .obj [("chat_id", .int x.chat_id), ("title", .str x.title)]

/-- Derived serde deserializer of SetChatTitle. -/
def SetChatTitle.decode : Json → Except String SetChatTitle
  | .obj l => do
    let c ← reqInt l "chat_id"
    let t ← reqStr l "title"
    pure ⟨c, t⟩
  | _ => .error "expected object"

/-- Request struct for the set_chat_description API call: the description
is optional and marked skip-when-absent. -/
structure SetChatDescription where
  chat_id : Int
  description : Option String
deriving DecidableEq

/-- Derived serde serializer of SetChatDescription. -/
def SetChatDescription.encode (x : SetChatDescription) : Json :=
  .obj (("chat_id", .int x.chat_id) ::
    optEntry "description" Json.str x.description)

/-- Derived serde deserializer of SetChatDescription. -/
def SetChatDescription.decode : Json → Except String SetChatDescription
  | .obj l => do
    let c ← reqInt l "chat_id"
    let d ← optStr l "description"
    pure ⟨c, d⟩
  | _ => .error "expected object"

/-- Request struct for the pin_chat_message API call: the
disable_notification field is a plain required boolean with no serde
attribute, so it is always serialized and must be present on
deserialization. -/
structure PinChatMessage where
  chat_id : Int
  message_id : Int
  disable_notification : Bool
deriving DecidableEq

/-- Derived serde serializer of PinChatMessage. -/
def PinChatMessage.encode (x : PinChatMessage) : Json :=
  .obj [("chat_id", .int x.chat_id), ("message_id", .int x.message_id),
    ("disable_notification", .bool x.disable_notification)]

/-- Derived serde deserializer of PinChatMessage. -/
def PinChatMessage.decode : Json → Except String PinChatMessage
  | .obj l => do
    let c ← reqInt l "chat_id"
    let m ← reqInt l "message_id"
    let d ← reqBool l "disable_notification"
    pure ⟨c, m, d⟩
  | _ => .error "expected object"

/-- Request struct for the unpin_chat_message API call: the message id is
optional and marked skip-when-absent. -/
structure UnpinChatMessage where
  chat_id : Int
  message_id : Option Int
deriving DecidableEq

/-- Derived serde serializer of UnpinChatMessage. -/
def UnpinChatMessage.encode (x : UnpinChatMessage) : Json :=
  .obj (("chat_id", .int x.chat_id) ::
    optEntry "message_id" Json.int x.message_id)

/-- Derived serde deserializer of UnpinChatMessage. -/
def UnpinChatMessage.decode : Json → Except String UnpinChatMessage
  | .obj l => do
    let c ← reqInt l "chat_id"
    let m ← optInt l "message_id"
    pure ⟨c, m⟩
  | _ => .error "expected object"

/-- Request struct for the unpin_all_chat_messages API call: only a chat
id. -/
structure UnpinAllChatMessages where
  chat_id : Int
deriving DecidableEq

/-- Derived serde serializer of UnpinAllChatMessages. -/
def UnpinAllChatMessages.encode (x : UnpinAllChatMessages) : Json :=
  .obj [("chat_id", .int x.chat_id)]

/-- Derived serde deserializer of UnpinAllChatMessages. -/
def UnpinAllChatMessages.decode : Json → Except String UnpinAllChatMessages
  | .obj l => do
    let c ← reqInt l "chat_id"
    pure ⟨c⟩
  | _ => .error "expected object"

/-- Request struct for the leave_chat API call: only a chat id. -/
structure LeaveChat where
  chat_id : Int
deriving DecidableEq

/-- Derived serde serializer of LeaveChat. -/
def LeaveChat.encode (x : LeaveChat) : Json :=
  .obj [("chat_id", .int x.chat_id)]

/-- Derived serde deserializer of LeaveChat. -/
def LeaveChat.decode : Json → Except String LeaveChat
  | .obj l => do
    let c ← reqInt l "chat_id"
    pure ⟨c⟩
  | _ => .error "expected object"

/-- Request struct for the get_chat API call: only a chat id. -/
structure GetChat where
  chat_id : Int
deriving DecidableEq

/-- Derived serde serializer of GetChat. -/
def GetChat.encode (x : GetChat) : Json :=
  .obj [("chat_id", .int x.chat_id)]

/-- Derived serde deserializer of GetChat. -/
def GetChat.decode : Json → Except String GetChat
  | .obj l => do
    let c ← reqInt l "chat_id"
    pure ⟨c⟩
  | _ => .error "expected object"

/-- Request struct for the get_chat_administrators API call: only a chat
id. -/
structure GetChatAdministrators where
  chat_id : Int
deriving DecidableEq

/-- Derived serde serializer of GetChatAdministrators. -/
def GetChatAdministrators.encode (x : GetChatAdministrators) : Json :=
  .obj [("chat_id", .int x.chat_id)]

/-- Derived serde deserializer of GetChatAdministrators. -/
def GetChatAdministrators.decode : Json → Except String GetChatAdministrators
  | .obj l => do
    let c ← reqInt l "chat_id"
    pure ⟨c⟩
  | _ => .error "expected object"

/-- Request struct for the get_chat_members_count API call: only a chat
id. -/
structure GetChatMembersCount where
  chat_id : Int
deriving DecidableEq

/-- Derived serde serializer of GetChatMembersCount. -/
def GetChatMembersCount.encode (x : GetChatMembersCount) : Json :=
  .obj [("chat_id", .int x.chat_id)]

/-- Derived serde deserializer of GetChatMembersCount. -/
def GetChatMembersCount.decode : Json → Except String GetChatMembersCount
  | .obj l => do
    let c ← reqInt l "chat_id"
    pure ⟨c⟩
  | _ => .error "expected object"

/-- Request struct for the get_chat_member API call. -/
structure GetChatMember where
  chat_id : Int
  user_id : Int
deriving DecidableEq

/-- Derived serde serializer of GetChatMember. -/
def GetChatMember.encode (x : GetChatMember) : Json :=
  .obj [("chat_id", .int x.chat_id), ("user_id", .int x.user_id)]

/-- Derived serde deserializer of GetChatMember. -/
def GetChatMember.decode : Json → Except String GetChatMember
  | .obj l => do
    let c ← reqInt l "chat_id"
    let u ← reqInt l "user_id"
    pure ⟨c, u⟩
  | _ => .error "expected object"

/-- Request struct for the set_chat_sticker_set API call. -/
structure SetChatStickerSet where
  chat_id : Int
  sticker_set_name : String
deriving DecidableEq

/-- Derived serde serializer of SetChatStickerSet. -/
def SetChatStickerSet.encode (x : SetChatStickerSet) : Json :=
  .obj [("chat_id", .int x.chat_id), ("sticker_set_name", .str x.sticker_set_name)]

/-- Derived serde deserializer of SetChatStickerSet. -/
def SetChatStickerSet.decode : Json → Except String SetChatStickerSet
  | .obj l => do
    let c ← reqInt l "chat_id"
    let s ← reqStr l "sticker_set_name"
    pure ⟨c, s⟩
  | _ => .error "expected object"

/-- Request struct for the delete_chat_sticker_set API call: only a chat
id. -/
structure DeleteChatStickerSet where
  chat_id : Int
deriving DecidableEq

/-- Derived serde serializer of DeleteChatStickerSet. -/
def DeleteChatStickerSet.encode (x : DeleteChatStickerSet) : Json :=
  .obj [("chat_id", .int x.chat_id)]

/-- Derived serde deserializer of DeleteChatStickerSet. -/
def DeleteChatStickerSet.decode : Json → Except String DeleteChatStickerSet
  | .obj l => do
    let c ← reqInt l "chat_id"
    pure ⟨c⟩
  | _ => .error "expected object"

/-- Request struct for the create_chat_invite_link API call.  Unlike the
other optional fields in this file, expire_date and member_limit carry
no skip-when-absent attribute in the source, so the derived serializer
always emits their keys, as an explicit JSON null when absent. -/
structure CreateChatInviteLink where
  chat_id : Int
  expire_date : Option Int
  member_limit : Option Int
deriving DecidableEq

/-- Derived serde serializer of CreateChatInviteLink: the two optional
fields are serialized unconditionally, null when absent. -/
def CreateChatInviteLink.encode (x : CreateChatInviteLink) : Json :=
  .obj [("chat_id", .int x.chat_id),
    ("expire_date", jsonOpt Json.int x.expire_date),
    ("member_limit", jsonOpt Json.int x.member_limit)]

/-- Derived serde deserializer of CreateChatInviteLink. -/
def CreateChatInviteLink.decode : Json → Except String CreateChatInviteLink
  | .obj l => do
    let c ← reqInt l "chat_id"
    let e ← optInt l "expire_date"
    let m ← optInt l "member_limit"
    pure ⟨c, e, m⟩
  | _ => .error "expected object"

/-- Request struct for the edit_chat_invite_link API call.  As for
CreateChatInviteLink, expire_date and member_limit carry no
skip-when-absent attribute in the source. -/
structure EditChatInviteLink where
  chat_id : Int
  invite_link : String
  expire_date : Option Int
  member_limit : Option Int
deriving DecidableEq

/-- Derived serde serializer of EditChatInviteLink: the two optional
fields are serialized unconditionally, null when absent. -/
def EditChatInviteLink.encode (x : EditChatInviteLink) : Json :=
  .obj [("chat_id", .int x.chat_id),
    ("invite_link", .str x.invite_link),
    ("expire_date", jsonOpt Json.int x.expire_date),
    ("member_limit", jsonOpt Json.int x.member_limit)]

/-- Derived serde deserializer of EditChatInviteLink. -/
def EditChatInviteLink.decode : Json → Except String EditChatInviteLink
  | .obj l => do
    let c ← reqInt l "chat_id"
    let i ← reqStr l "invite_link"
    let e ← optInt l "expire_date"
    let m ← optInt l "member_limit"
    pure ⟨c, i, e, m⟩
  | _ => .error "expected object"

/-- Request struct for the revoke_chat_invite_link API call. -/
structure RevokeChatInviteLink where
  chat_id : Int
  invite_link : String
deriving DecidableEq

/-- Derived serde serializer of RevokeChatInviteLink. -/
def RevokeChatInviteLink.encode (x : RevokeChatInviteLink) : Json :=
  .obj [("chat_id", .int x.chat_id), ("invite_link", .str x.invite_link)]

/-- Derived serde deserializer of RevokeChatInviteLink. -/
def RevokeChatInviteLink.decode : Json → Except String RevokeChatInviteLink
  | .obj l => do
    let c ← reqInt l "chat_id"
    let i ← reqStr l "invite_link"
    pure ⟨c, i⟩
  | _ => .error "expected object"

/-- Modelled from the spec: the Chat model type is declared in the chat
model module, which is not part of the included sources.  The spec
describes Chat as a variant over Private, Group, SuperGroup and Channel,
discriminated on the wire by a string field named type, each variant
carrying a stable integer id (plus variant-specific attributes: first
and last names for private chats, a title for the group-like chats). -/
inductive Chat where
  | Private (id : Int) (first_name : Option String) (last_name : Option String)
  | Group (id : Int) (title : Option String)
  | SuperGroup (id : Int) (title : Option String)
  | Channel (id : Int) (title : Option String)
deriving DecidableEq

/-- Modelled from the spec: the stable integer identity of a chat,
mirroring the get_id accessor used by the conversion macro in
src/api/types/chat.rs. -/
def Chat.get_id : Chat → Int
  | .Private i _ _ => i
  | .Group i _ => i
  | .SuperGroup i _ => i
  | .Channel i _ => i

/-- Modelled from the spec: decoding a chat JSON object.  The string
field named type selects the variant; the recognized tags are private,
group, supergroup and channel.  The Chat sum type has no catch-all
variant, so an unrecognized tag is a decode failure. -/
def Chat.decode : Json → Except String Chat
  | .obj l =>
    match List.lookup "type" l with
    | some (.str t) =>
      if t = "private" then do
        let i ← reqInt l "id"
        let f ← optStr l "first_name"
        let n ← optStr l "last_name"
        pure (Chat.Private i f n)
      else if t = "group" then do
        let i ← reqInt l "id"
        let s ← optStr l "title"
        pure (Chat.Group i s)
      else if t = "supergroup" then do
        let i ← reqInt l "id"
        let s ← optStr l "title"
        pure (Chat.SuperGroup i s)
      else if t = "channel" then do
        let i ← reqInt l "id"
        let s ← optStr l "title"
        pure (Chat.Channel i s)
      else .error ("unknown chat type " ++ t)
    | some _ => .error "chat type field must be a string"
    | none => .error "missing chat type field"
  | _ => .error "expected object"

/-- Conversion from a Chat entity, generated in the source by the
impl_from_chat macro invocation for ExportChatInviteLink: it extracts the
chat id and sets nothing else. -/
def ExportChatInviteLink.from_chat (chat : Chat) : ExportChatInviteLink :=
  ⟨chat.get_id⟩

/-- Conversion from a Chat entity, generated in the source by the
impl_from_chat macro invocation for DeleteChatPhoto. -/
def DeleteChatPhoto.from_chat (chat : Chat) : DeleteChatPhoto :=
  ⟨chat.get_id⟩

/-- Conversion from a Chat entity, generated in the source by the
impl_from_chat macro invocation for UnpinAllChatMessages. -/
def UnpinAllChatMessages.from_chat (chat : Chat) : UnpinAllChatMessages :=
  ⟨chat.get_id⟩

/-- Conversion from a Chat entity, generated in the source by the
impl_from_chat macro invocation for LeaveChat. -/
def LeaveChat.from_chat (chat : Chat) : LeaveChat :=
  ⟨chat.get_id⟩

/-- Conversion from a Chat entity, generated in the source by the
impl_from_chat macro invocation for GetChat. -/
def GetChat.from_chat (chat : Chat) : GetChat :=
  ⟨chat.get_id⟩

/-- Conversion from a Chat entity, generated in the source by the
impl_from_chat macro invocation for GetChatAdministrators. -/
def GetChatAdministrators.from_chat (chat : Chat) : GetChatAdministrators :=
  ⟨chat.get_id⟩

/-- Conversion from a Chat entity, generated in the source by the
impl_from_chat macro invocation for GetChatMembersCount. -/
def GetChatMembersCount.from_chat (chat : Chat) : GetChatMembersCount :=
  ⟨chat.get_id⟩

/-- Conversion from a Chat entity, generated in the source by the
impl_from_chat macro invocation for DeleteChatStickerSet. -/
def DeleteChatStickerSet.from_chat (chat : Chat) : DeleteChatStickerSet :=
  ⟨chat.get_id⟩

/-- Modelled from the spec: the content of an Update, a variant over the
kinds of event the platform can deliver; the spec names messages,
callback queries and polls as representative kinds.  The update module
is not part of the included sources, so the content payloads are kept as
raw JSON values. -/
inductive UpdateContent where
  | Message (content : Json)
  | CallbackQuery (content : Json)
  | Poll (content : Json)

/-- Modelled from the spec: an Update pairs an update id with exactly one
content variant. -/
structure Update where
  update_id : Int
  content : UpdateContent

/-- The discriminating field named k of a raw update object, when it is
populated, that is, present and not null. -/
def populatedField (l : List (String × Json)) (k : String) : Option Json :=
  match List.lookup k l with
  | some .null => none
  | some j => some j
  | none => none

/-- Modelled from the spec: decoding an update payload.  The variant is
selected by which discriminating optional sibling field is populated;
when none is populated decoding fails, and when several are populated the
first populated field in the fixed order message, callback_query, poll
takes precedence (the documented policy of this model). -/
def Update.decode : Json → Except String Update
  | .obj l => do
    let uid ← reqInt l "update_id"
    match populatedField l "message" with
    | some j => pure ⟨uid, .Message j⟩
    | none =>
      match populatedField l "callback_query" with
      | some j => pure ⟨uid, .CallbackQuery j⟩
      | none =>
        match populatedField l "poll" with
        | some j => pure ⟨uid, .Poll j⟩
        | none => .error "no update content found"
  | _ => .error "expected object"

/-! ### Lookup and decoding helper lemmas -/

theorem lookup_nil (k : String) : List.lookup k ([] : List (String × Json)) = none := rfl

theorem lookup_cons_self (k : String) (v : Json) (l : List (String × Json)) :
    List.lookup k ((k, v) :: l) = some v := by
  simp [List.lookup]

theorem lookup_cons_ne {k k2 : String} (h : k ≠ k2) (v : Json) (l : List (String × Json)) :
    List.lookup k ((k2, v) :: l) = List.lookup k l := by
  simp [List.lookup, beq_eq_false_iff_ne.mpr h]

theorem lookup_optEntry_ne {k k2 : String} (h : k ≠ k2) (f : α → Json) (o : Option α)
    (l : List (String × Json)) :
    List.lookup k (optEntry k2 f o ++ l) = List.lookup k l := by
  cases o <;> simp [optEntry, List.lookup, beq_eq_false_iff_ne.mpr h]

theorem lookup_optEntry_ne2 {k k2 : String} (h : k ≠ k2) (f : α → Json) (o : Option α) :
    List.lookup k (optEntry k2 f o) = none := by
  cases o <;> simp [optEntry, List.lookup, beq_eq_false_iff_ne.mpr h]

theorem lookup_optEntry_absent (k : String) (f : α → Json) (l : List (String × Json)) :
    List.lookup k (optEntry k f none ++ l) = List.lookup k l := by
  simp [optEntry]

theorem lookup_optEntry_absent2 (k : String) (f : α → Json) :
    List.lookup k (optEntry k f none) = none := rfl

theorem lookup_optEntry_self (k : String) (f : α → Json) (o : Option α)
    (l : List (String × Json)) (h : List.lookup k l = none) :
    List.lookup k (optEntry k f o ++ l) = Option.map f o := by
  cases o <;> simp [optEntry, List.lookup, h]

theorem exbind_ok (a : α) (f : α → Except String β) :
    (Except.ok a >>= f : Except String β) = f a := rfl

theorem exbind_err (e : String) (f : α → Except String β) :
    (Except.error e >>= f : Except String β) = .error e := rfl

theorem exmap_ok (f : α → β) (a : α) :
    (f <$> (Except.ok a : Except String α)) = .ok (f a) := rfl

theorem exmap_err (f : α → β) (e : String) :
    (f <$> (Except.error e : Except String α)) = .error e := rfl

theorem reqInt_cons_self (k : String) (n : Int) (l : List (String × Json)) :
    reqInt ((k, .int n) :: l) k = .ok n := by
  simp [reqInt, List.lookup]

theorem reqInt_cons_ne {k k2 : String} (h : k ≠ k2) (v : Json) (l : List (String × Json)) :
    reqInt ((k2, v) :: l) k = reqInt l k := by
  simp [reqInt, lookup_cons_ne h]

theorem reqInt_optEntry_ne {k k2 : String} (h : k ≠ k2) (f : α → Json) (o : Option α)
    (l : List (String × Json)) :
    reqInt (optEntry k2 f o ++ l) k = reqInt l k := by
  simp [reqInt, lookup_optEntry_ne h]

theorem reqStr_cons_self (k : String) (s : String) (l : List (String × Json)) :
    reqStr ((k, .str s) :: l) k = .ok s := by
  simp [reqStr, List.lookup]

theorem reqStr_cons_ne {k k2 : String} (h : k ≠ k2) (v : Json) (l : List (String × Json)) :
    reqStr ((k2, v) :: l) k = reqStr l k := by
  simp [reqStr, lookup_cons_ne h]

theorem reqBool_cons_self (k : String) (b : Bool) (l : List (String × Json)) :
    reqBool ((k, .bool b) :: l) k = .ok b := by
  simp [reqBool, List.lookup]

theorem reqBool_cons_ne {k k2 : String} (h : k ≠ k2) (v : Json) (l : List (String × Json)) :
    reqBool ((k2, v) :: l) k = reqBool l k := by
  simp [reqBool, lookup_cons_ne h]

theorem defBool_cons_self (k : String) (b : Bool) (l : List (String × Json)) :
    defBool ((k, .bool b) :: l) k = .ok b := by
  simp [defBool, List.lookup]

theorem defBool_cons_ne {k k2 : String} (h : k ≠ k2) (v : Json) (l : List (String × Json)) :
    defBool ((k2, v) :: l) k = defBool l k := by
  simp [defBool, lookup_cons_ne h]

theorem optInt_cons_ne {k k2 : String} (h : k ≠ k2) (v : Json) (l : List (String × Json)) :
    optInt ((k2, v) :: l) k = optInt l k := by
  simp [optInt, lookup_cons_ne h]

theorem optInt_optEntry_ne {k k2 : String} (h : k ≠ k2) (f : α → Json) (o : Option α)
    (l : List (String × Json)) :
    optInt (optEntry k2 f o ++ l) k = optInt l k := by
  simp [optInt, lookup_optEntry_ne h]

theorem optInt_optEntry_self (k : String) (o : Option Int) (l : List (String × Json))
    (h : List.lookup k l = none) :
    optInt (optEntry k Json.int o ++ l) k = .ok o := by
  cases o <;> simp [optInt, optEntry, List.lookup, h]

theorem optInt_optEntry_last (k : String) (o : Option Int) :
    optInt (optEntry k Json.int o) k = .ok o := by
  cases o <;> simp [optInt, optEntry, List.lookup]

theorem optInt_cons_jsonOpt (k : String) (o : Option Int) (l : List (String × Json)) :
    optInt ((k, jsonOpt Json.int o) :: l) k = .ok o := by
  cases o <;> simp [optInt, jsonOpt, List.lookup]

theorem optBool_cons_ne {k k2 : String} (h : k ≠ k2) (v : Json) (l : List (String × Json)) :
    optBool ((k2, v) :: l) k = optBool l k := by
  simp [optBool, lookup_cons_ne h]

theorem optBool_optEntry_ne {k k2 : String} (h : k ≠ k2) (f : α → Json) (o : Option α)
    (l : List (String × Json)) :
    optBool (optEntry k2 f o ++ l) k = optBool l k := by
  simp [optBool, lookup_optEntry_ne h]

theorem optBool_optEntry_self (k : String) (o : Option Bool) (l : List (String × Json))
    (h : List.lookup k l = none) :
    optBool (optEntry k Json.bool o ++ l) k = .ok o := by
  cases o <;> simp [optBool, optEntry, List.lookup, h]

theorem optBool_optEntry_last (k : String) (o : Option Bool) :
    optBool (optEntry k Json.bool o) k = .ok o := by
  cases o <;> simp [optBool, optEntry, List.lookup]

theorem optStr_cons_ne {k k2 : String} (h : k ≠ k2) (v : Json) (l : List (String × Json)) :
    optStr ((k2, v) :: l) k = optStr l k := by
  simp [optStr, lookup_cons_ne h]

theorem optStr_optEntry_self (k : String) (o : Option String) (l : List (String × Json))
    (h : List.lookup k l = none) :
    optStr (optEntry k Json.str o ++ l) k = .ok o := by
  cases o <;> simp [optStr, optEntry, List.lookup, h]

theorem optStr_optEntry_last (k : String) (o : Option String) :
    optStr (optEntry k Json.str o) k = .ok o := by
  cases o <;> simp [optStr, optEntry, List.lookup]

theorem reqPerm_cons_self (k : String) (j : Json) (l : List (String × Json)) :
    reqPerm ((k, j) :: l) k = ChatPermissions.decode j := by
  simp [reqPerm, List.lookup]

theorem reqPerm_cons_ne {k k2 : String} (h : k ≠ k2) (v : Json) (l : List (String × Json)) :
    reqPerm ((k2, v) :: l) k = reqPerm l k := by
  simp [reqPerm, lookup_cons_ne h]

theorem reqFile_cons_self (k : String) (j : Json) (l : List (String × Json)) :
    reqFile ((k, j) :: l) k = InputFile.decode j := by
  simp [reqFile, List.lookup]

theorem reqFile_cons_ne {k k2 : String} (h : k ≠ k2) (v : Json) (l : List (String × Json)) :
    reqFile ((k2, v) :: l) k = reqFile l k := by
  simp [reqFile, lookup_cons_ne h]

/-- Round trip of the modelled ChatPermissions encoding. -/
theorem cp_roundtrip (p : ChatPermissions) :
    ChatPermissions.decode (ChatPermissions.encode p) = .ok p := by
  obtain ⟨a, b, c, d, e, f, g, h⟩ := p
  simp [ChatPermissions.encode, ChatPermissions.decode,
    optBool_optEntry_ne, optBool_optEntry_self, optBool_optEntry_last,
    lookup_optEntry_ne, lookup_optEntry_ne2, exbind_ok]

/-- Round trip of the modelled InputFile encoding. -/
theorem inputfile_roundtrip (x : InputFile) :
    InputFile.decode (InputFile.encode x) = .ok x := by
  cases x <;> rfl

/-! ### Stability of lookups under appended unknown keys -/

theorem lookup_eq_none_of_ne {k : String} :
    ∀ {e : List (String × Json)}, (∀ p ∈ e, p.fst ≠ k) → List.lookup k e = none
  | [], _ => rfl
  | (k2, v) :: t, h => by
    rw [lookup_cons_ne (Ne.symm (h (k2, v) (List.mem_cons_self _ _)))]
    exact lookup_eq_none_of_ne fun p hp => h p (List.mem_cons_of_mem _ hp)

theorem lookup_append_of_ne {k : String} (l e : List (String × Json))
    (h : ∀ p ∈ e, p.fst ≠ k) : List.lookup k (l ++ e) = List.lookup k l := by
  induction l with
  | nil => simpa using lookup_eq_none_of_ne h
  | cons p t ih =>
    obtain ⟨k2, v⟩ := p
    by_cases hk : k = k2
    · subst hk
      rw [List.cons_append, lookup_cons_self, lookup_cons_self]
    · rw [List.cons_append, lookup_cons_ne hk, lookup_cons_ne hk, ih]

theorem reqInt_append {k : String} {l e : List (String × Json)}
    (h : ∀ p ∈ e, p.fst ≠ k) : reqInt (l ++ e) k = reqInt l k := by
  simp [reqInt, lookup_append_of_ne l e h]

theorem reqStr_append {k : String} {l e : List (String × Json)}
    (h : ∀ p ∈ e, p.fst ≠ k) : reqStr (l ++ e) k = reqStr l k := by
  simp [reqStr, lookup_append_of_ne l e h]

theorem reqBool_append {k : String} {l e : List (String × Json)}
    (h : ∀ p ∈ e, p.fst ≠ k) : reqBool (l ++ e) k = reqBool l k := by
  simp [reqBool, lookup_append_of_ne l e h]

theorem defBool_append {k : String} {l e : List (String × Json)}
    (h : ∀ p ∈ e, p.fst ≠ k) : defBool (l ++ e) k = defBool l k := by
  simp [defBool, lookup_append_of_ne l e h]

theorem optInt_append {k : String} {l e : List (String × Json)}
    (h : ∀ p ∈ e, p.fst ≠ k) : optInt (l ++ e) k = optInt l k := by
  simp [optInt, lookup_append_of_ne l e h]

theorem optStr_append {k : String} {l e : List (String × Json)}
    (h : ∀ p ∈ e, p.fst ≠ k) : optStr (l ++ e) k = optStr l k := by
  simp [optStr, lookup_append_of_ne l e h]

theorem optBool_append {k : String} {l e : List (String × Json)}
    (h : ∀ p ∈ e, p.fst ≠ k) : optBool (l ++ e) k = optBool l k := by
  simp [optBool, lookup_append_of_ne l e h]

theorem reqPerm_append {k : String} {l e : List (String × Json)}
    (h : ∀ p ∈ e, p.fst ≠ k) : reqPerm (l ++ e) k = reqPerm l k := by
  simp [reqPerm, lookup_append_of_ne l e h]

theorem reqFile_append {k : String} {l e : List (String × Json)}
    (h : ∀ p ∈ e, p.fst ≠ k) : reqFile (l ++ e) k = reqFile l k := by
  simp [reqFile, lookup_append_of_ne l e h]

theorem key_ne_of_not_mem {e : List (String × Json)} {names : List String}
    (k : String) (h : ∀ p ∈ e, p.fst ∉ names) (hk : k ∈ names) : ∀ p ∈ e, p.fst ≠ k :=
  fun p hp he => h p hp (by rw [he]; exact hk)

/-! ### Per struct round trip lemmas -/

theorem rt_KickChatMember (x : KickChatMember) :
    KickChatMember.decode (KickChatMember.encode x) = .ok x := by
  obtain ⟨c, u, d, r⟩ := x
  cases d <;> cases r <;> rfl

theorem rt_UnbanChatMember (x : UnbanChatMember) :
    UnbanChatMember.decode (UnbanChatMember.encode x) = .ok x := by
  obtain ⟨c, u, b⟩ := x
  rfl

theorem rt_RestrictChatMember (x : RestrictChatMember) :
    RestrictChatMember.decode (RestrictChatMember.encode x) = .ok x := by
  obtain ⟨c, u, p, d⟩ := x
  simp [RestrictChatMember.encode, RestrictChatMember.decode,
    reqInt_cons_self, reqInt_cons_ne,
    reqPerm_cons_self, reqPerm_cons_ne, cp_roundtrip,
    optInt_cons_ne, optInt_optEntry_last, exbind_ok]

theorem rt_PromoteChatMember (x : PromoteChatMember) :
    PromoteChatMember.decode (PromoteChatMember.encode x) = .ok x := by
  obtain ⟨c, u, o1, o2, o3, o4, o5, o6, o7, o8, o9, o10, o11⟩ := x
  simp [PromoteChatMember.encode, PromoteChatMember.encodeFields,
    PromoteChatMember.decode,
    reqInt_cons_self, reqInt_cons_ne,
    optBool_cons_ne, optBool_optEntry_ne, optBool_optEntry_self, optBool_optEntry_last,
    lookup_optEntry_ne, lookup_optEntry_ne2, exbind_ok]

theorem rt_SetChatAdministratorCustomTitle (x : SetChatAdministratorCustomTitle) :
    SetChatAdministratorCustomTitle.decode (SetChatAdministratorCustomTitle.encode x) = .ok x := by
  obtain ⟨c, u, t⟩ := x
  rfl

theorem rt_SetChatPermissions (x : SetChatPermissions) :
    SetChatPermissions.decode (SetChatPermissions.encode x) = .ok x := by
  obtain ⟨c, p⟩ := x
  simp [SetChatPermissions.encode, SetChatPermissions.decode,
    reqInt_cons_self, reqPerm_cons_self, reqPerm_cons_ne, cp_roundtrip, exbind_ok]

theorem rt_ExportChatInviteLink (x : ExportChatInviteLink) :
    ExportChatInviteLink.decode (ExportChatInviteLink.encode x) = .ok x := by
  obtain ⟨c⟩ := x
  rfl

theorem rt_SetChatPhoto (x : SetChatPhoto) :
    SetChatPhoto.decode (SetChatPhoto.encode x) = .ok x := by
  obtain ⟨c, p⟩ := x
  cases p <;> rfl

theorem rt_DeleteChatPhoto (x : DeleteChatPhoto) :
    DeleteChatPhoto.decode (DeleteChatPhoto.encode x) = .ok x := by
  obtain ⟨c⟩ := x
  rfl

theorem rt_SetChatTitle (x : SetChatTitle) :
    SetChatTitle.decode (SetChatTitle.encode x) = .ok x := by
  obtain ⟨c, t⟩ := x
  rfl

theorem rt_SetChatDescription (x : SetChatDescription) :
    SetChatDescription.decode (SetChatDescription.encode x) = .ok x := by
  obtain ⟨c, d⟩ := x
  cases d <;> rfl

theorem rt_PinChatMessage (x : PinChatMessage) :
    PinChatMessage.decode (PinChatMessage.encode x) = .ok x := by
  obtain ⟨c, m, d⟩ := x
  rfl

theorem rt_UnpinChatMessage (x : UnpinChatMessage) :
    UnpinChatMessage.decode (UnpinChatMessage.encode x) = .ok x := by
  obtain ⟨c, m⟩ := x
  cases m <;> rfl

theorem rt_UnpinAllChatMessages (x : UnpinAllChatMessages) :
    UnpinAllChatMessages.decode (UnpinAllChatMessages.encode x) = .ok x := by
  obtain ⟨c⟩ := x
  rfl

theorem rt_LeaveChat (x : LeaveChat) :
    LeaveChat.decode (LeaveChat.encode x) = .ok x := by
  obtain ⟨c⟩ := x
  rfl

theorem rt_GetChat (x : GetChat) :
    GetChat.decode (GetChat.encode x) = .ok x := by
  obtain ⟨c⟩ := x
  rfl

theorem rt_GetChatAdministrators (x : GetChatAdministrators) :
    GetChatAdministrators.decode (GetChatAdministrators.encode x) = .ok x := by
  obtain ⟨c⟩ := x
  rfl

theorem rt_GetChatMembersCount (x : GetChatMembersCount) :
    GetChatMembersCount.decode (GetChatMembersCount.encode x) = .ok x := by
  obtain ⟨c⟩ := x
  rfl

theorem rt_GetChatMember (x : GetChatMember) :
    GetChatMember.decode (GetChatMember.encode x) = .ok x := by
  obtain ⟨c, u⟩ := x
  rfl

theorem rt_SetChatStickerSet (x : SetChatStickerSet) :
    SetChatStickerSet.decode (SetChatStickerSet.encode x) = .ok x := by
  obtain ⟨c, s⟩ := x
  rfl

theorem rt_DeleteChatStickerSet (x : DeleteChatStickerSet) :
    DeleteChatStickerSet.decode (DeleteChatStickerSet.encode x) = .ok x := by
  obtain ⟨c⟩ := x
  rfl

theorem rt_CreateChatInviteLink (x : CreateChatInviteLink) :
    CreateChatInviteLink.decode (CreateChatInviteLink.encode x) = .ok x := by
  obtain ⟨c, e, m⟩ := x
  cases e <;> cases m <;> rfl

theorem rt_EditChatInviteLink (x : EditChatInviteLink) :
    EditChatInviteLink.decode (EditChatInviteLink.encode x) = .ok x := by
  obtain ⟨c, i, e, m⟩ := x
  cases e <;> cases m <;> rfl

theorem rt_RevokeChatInviteLink (x : RevokeChatInviteLink) :
    RevokeChatInviteLink.decode (RevokeChatInviteLink.encode x) = .ok x := by
  obtain ⟨c, i⟩ := x
  rfl

/-! ### Claim theorems -/

/-- C2: for every request struct type in the file and every value x of
that type, over all field-presence combinations of its optional fields,
deserializing the JSON produced by serializing x yields exactly x.  The
ChatPermissions, InputFile and date components of RestrictChatMember,
SetChatPermissions and SetChatPhoto are modelled from the spec, since
their definitions are outside the included sources. -/
theorem claim_roundtrip_all_request_structs :
    (∀ x : KickChatMember, KickChatMember.decode (KickChatMember.encode x) = .ok x)
  ∧ (∀ x : UnbanChatMember, UnbanChatMember.decode (UnbanChatMember.encode x) = .ok x)
  ∧ (∀ x : RestrictChatMember, RestrictChatMember.decode (RestrictChatMember.encode x) = .ok x)
  ∧ (∀ x : PromoteChatMember, PromoteChatMember.decode (PromoteChatMember.encode x) = .ok x)
  ∧ (∀ x : SetChatAdministratorCustomTitle,
      SetChatAdministratorCustomTitle.decode (SetChatAdministratorCustomTitle.encode x) = .ok x)
  ∧ (∀ x : SetChatPermissions, SetChatPermissions.decode (SetChatPermissions.encode x) = .ok x)
  ∧ (∀ x : ExportChatInviteLink, ExportChatInviteLink.decode (ExportChatInviteLink.encode x) = .ok x)
  ∧ (∀ x : SetChatPhoto, SetChatPhoto.decode (SetChatPhoto.encode x) = .ok x)
  ∧ (∀ x : DeleteChatPhoto, DeleteChatPhoto.decode (DeleteChatPhoto.encode x) = .ok x)
  ∧ (∀ x : SetChatTitle, SetChatTitle.decode (SetChatTitle.encode x) = .ok x)
  ∧ (∀ x : SetChatDescription, SetChatDescription.decode (SetChatDescription.encode x) = .ok x)
  ∧ (∀ x : PinChatMessage, PinChatMessage.decode (PinChatMessage.encode x) = .ok x)
  ∧ (∀ x : UnpinChatMessage, UnpinChatMessage.decode (UnpinChatMessage.encode x) = .ok x)
  ∧ (∀ x : UnpinAllChatMessages, UnpinAllChatMessages.decode (UnpinAllChatMessages.encode x) = .ok x)
  ∧ (∀ x : LeaveChat, LeaveChat.decode (LeaveChat.encode x) = .ok x)
  ∧ (∀ x : GetChat, GetChat.decode (GetChat.encode x) = .ok x)
  ∧ (∀ x : GetChatAdministrators, GetChatAdministrators.decode (GetChatAdministrators.encode x) = .ok x)
  ∧ (∀ x : GetChatMembersCount, GetChatMembersCount.decode (GetChatMembersCount.encode x) = .ok x)
  ∧ (∀ x : GetChatMember, GetChatMember.decode (GetChatMember.encode x) = .ok x)
  ∧ (∀ x : SetChatStickerSet, SetChatStickerSet.decode (SetChatStickerSet.encode x) = .ok x)
  ∧ (∀ x : DeleteChatStickerSet, DeleteChatStickerSet.decode (DeleteChatStickerSet.encode x) = .ok x)
  ∧ (∀ x : CreateChatInviteLink, CreateChatInviteLink.decode (CreateChatInviteLink.encode x) = .ok x)
  ∧ (∀ x : EditChatInviteLink, EditChatInviteLink.decode (EditChatInviteLink.encode x) = .ok x)
  ∧ (∀ x : RevokeChatInviteLink, RevokeChatInviteLink.decode (RevokeChatInviteLink.encode x) = .ok x) :=
  ⟨rt_KickChatMember, rt_UnbanChatMember, rt_RestrictChatMember, rt_PromoteChatMember,
    rt_SetChatAdministratorCustomTitle, rt_SetChatPermissions, rt_ExportChatInviteLink,
    rt_SetChatPhoto, rt_DeleteChatPhoto, rt_SetChatTitle, rt_SetChatDescription,
    rt_PinChatMessage, rt_UnpinChatMessage, rt_UnpinAllChatMessages, rt_LeaveChat,
    rt_GetChat, rt_GetChatAdministrators, rt_GetChatMembersCount, rt_GetChatMember,
    rt_SetChatStickerSet, rt_DeleteChatStickerSet, rt_CreateChatInviteLink,
    rt_EditChatInviteLink, rt_RevokeChatInviteLink⟩

/-- C3: PromoteChatMember.new 111 222 sets chat_id to 111, user_id to
222, leaves all eleven optional permission flags absent, and serializes
to a JSON object whose only keys are chat_id and user_id. -/
theorem claim_promote_new_defaults :
    (PromoteChatMember.new 111 222).chat_id = 111
  ∧ (PromoteChatMember.new 111 222).user_id = 222
  ∧ (PromoteChatMember.new 111 222).is_anonymous = none
  ∧ (PromoteChatMember.new 111 222).can_manage_chat = none
  ∧ (PromoteChatMember.new 111 222).can_post_messages = none
  ∧ (PromoteChatMember.new 111 222).can_edit_messages = none
  ∧ (PromoteChatMember.new 111 222).can_delete_messages = none
  ∧ (PromoteChatMember.new 111 222).can_restrict_members = none
  ∧ (PromoteChatMember.new 111 222).can_promote_members = none
  ∧ (PromoteChatMember.new 111 222).can_change_info = none
  ∧ (PromoteChatMember.new 111 222).can_invite_users = none
  ∧ (PromoteChatMember.new 111 222).can_pin_messages = none
  ∧ (PromoteChatMember.new 111 222).can_manage_voice_chats = none
  ∧ PromoteChatMember.encode (PromoteChatMember.new 111 222) =
      .obj [("chat_id", .int 111), ("user_id", .int 222)] :=
  ⟨rfl, rfl, rfl, rfl, rfl, rfl, rfl, rfl, rfl, rfl, rfl, rfl, rfl, rfl⟩

/-- C4: converting a Chat entity into each of the eight chat-id-only
request structs yields the struct whose single field chat_id is the id
of the chat, for every variant of Chat. -/
theorem claim_from_chat_conversions :
    (∀ chat : Chat, ExportChatInviteLink.from_chat chat = ⟨chat.get_id⟩)
  ∧ (∀ chat : Chat, DeleteChatPhoto.from_chat chat = ⟨chat.get_id⟩)
  ∧ (∀ chat : Chat, UnpinAllChatMessages.from_chat chat = ⟨chat.get_id⟩)
  ∧ (∀ chat : Chat, LeaveChat.from_chat chat = ⟨chat.get_id⟩)
  ∧ (∀ chat : Chat, GetChat.from_chat chat = ⟨chat.get_id⟩)
  ∧ (∀ chat : Chat, GetChatAdministrators.from_chat chat = ⟨chat.get_id⟩)
  ∧ (∀ chat : Chat, GetChatMembersCount.from_chat chat = ⟨chat.get_id⟩)
  ∧ (∀ chat : Chat, DeleteChatStickerSet.from_chat chat = ⟨chat.get_id⟩)
  ∧ (∀ (i : Int) (f n : Option String), Chat.get_id (.Private i f n) = i)
  ∧ (∀ (i : Int) (t : Option String), Chat.get_id (.Group i t) = i)
  ∧ (∀ (i : Int) (t : Option String), Chat.get_id (.SuperGroup i t) = i)
  ∧ (∀ (i : Int) (t : Option String), Chat.get_id (.Channel i t) = i) :=
  ⟨fun _ => rfl, fun _ => rfl, fun _ => rfl, fun _ => rfl, fun _ => rfl, fun _ => rfl,
    fun _ => rfl, fun _ => rfl, fun _ _ _ => rfl, fun _ _ => rfl, fun _ _ => rfl,
    fun _ _ => rfl⟩

set_option maxRecDepth 8192 in
/-- C7: serialization is a total function on request struct values and
imposes no domain limits: the serialized form of
SetChatAdministratorCustomTitle and SetChatTitle is fully determined for
every value, including a custom title longer than 16 characters and
titles that are empty or longer than 255 characters. -/
theorem claim_serialization_never_fails :
    (∀ x : SetChatAdministratorCustomTitle,
        SetChatAdministratorCustomTitle.encode x =
          .obj [("chat_id", .int x.chat_id), ("user_id", .int x.user_id),
            ("custom_title", .str x.custom_title)])
  ∧ (∀ x : SetChatTitle,
        SetChatTitle.encode x = .obj [("chat_id", .int x.chat_id), ("title", .str x.title)])
  ∧ ("a far too long custom title".length > 16)
  ∧ (SetChatAdministratorCustomTitle.encode ⟨1, 2, "a far too long custom title"⟩ =
      .obj [("chat_id", .int 1), ("user_id", .int 2),
        ("custom_title", .str "a far too long custom title")])
  ∧ (SetChatTitle.encode ⟨3, ""⟩ = .obj [("chat_id", .int 3), ("title", .str "")])
  ∧ ((String.mk (List.replicate 256 'a')).length > 255)
  ∧ (SetChatTitle.encode ⟨4, String.mk (List.replicate 256 'a')⟩ =
      .obj [("chat_id", .int 4), ("title", .str (String.mk (List.replicate 256 'a')))]) :=
  ⟨fun _ => rfl, fun _ => rfl, by decide, rfl, rfl, by decide, rfl⟩

/-- C1 counterexample: serializing a CreateChatInviteLink whose optional
expire_date field is absent produces an object that does contain the
expire_date key, bound to an explicit JSON null, because expire_date
carries no skip-when-absent attribute in the source; this refutes the
claim that every request struct omits absent optional fields. -/
theorem claim_omission_counterexample :
    Json.lookupKey (CreateChatInviteLink.encode ⟨1, none, none⟩) "expire_date" =
      some Json.null := rfl

/-- C1 (amended): for every request struct whose optional fields carry
the skip-when-absent serde attribute, serializing a value in which such
a field is absent produces an object with no key for that field; the
optional expire_date and member_limit fields of CreateChatInviteLink and
EditChatInviteLink carry no such attribute and are serialized as
explicit JSON nulls when absent. -/
theorem claim_optional_field_omission_amended :
    (∀ (c u : Int) (r : Option Bool),
        Json.lookupKey (KickChatMember.encode ⟨c, u, none, r⟩) "until_date" = none)
  ∧ (∀ (c u : Int) (d : Option Int),
        Json.lookupKey (KickChatMember.encode ⟨c, u, d, none⟩) "revoke_messages" = none)
  ∧ (∀ (c u : Int) (p : ChatPermissions),
        Json.lookupKey (RestrictChatMember.encode ⟨c, u, p, none⟩) "until_date" = none)
  ∧ (∀ (c u : Int) (o2 o3 o4 o5 o6 o7 o8 o9 o10 o11 : Option Bool),
        Json.lookupKey
          (PromoteChatMember.encode ⟨c, u, none, o2, o3, o4, o5, o6, o7, o8, o9, o10, o11⟩)
          "is_anonymous" = none)
  ∧ (∀ (c u : Int) (o1 o3 o4 o5 o6 o7 o8 o9 o10 o11 : Option Bool),
        Json.lookupKey
          (PromoteChatMember.encode ⟨c, u, o1, none, o3, o4, o5, o6, o7, o8, o9, o10, o11⟩)
          "can_post_messages" = none)
  ∧ (∀ (c u : Int) (o1 o2 o4 o5 o6 o7 o8 o9 o10 o11 : Option Bool),
        Json.lookupKey
          (PromoteChatMember.encode ⟨c, u, o1, o2, none, o4, o5, o6, o7, o8, o9, o10, o11⟩)
          "can_edit_messages" = none)
  ∧ (∀ (c u : Int) (o1 o2 o3 o5 o6 o7 o8 o9 o10 o11 : Option Bool),
        Json.lookupKey
          (PromoteChatMember.encode ⟨c, u, o1, o2, o3, none, o5, o6, o7, o8, o9, o10, o11⟩)
          "can_delete_messages" = none)
  ∧ (∀ (c u : Int) (o1 o2 o3 o4 o6 o7 o8 o9 o10 o11 : Option Bool),
        Json.lookupKey
          (PromoteChatMember.encode ⟨c, u, o1, o2, o3, o4, none, o6, o7, o8, o9, o10, o11⟩)
          "can_restrict_members" = none)
  ∧ (∀ (c u : Int) (o1 o2 o3 o4 o5 o7 o8 o9 o10 o11 : Option Bool),
        Json.lookupKey
          (PromoteChatMember.encode ⟨c, u, o1, o2, o3, o4, o5, none, o7, o8, o9, o10, o11⟩)
          "can_promote_members" = none)
  ∧ (∀ (c u : Int) (o1 o2 o3 o4 o5 o6 o8 o9 o10 o11 : Option Bool),
        Json.lookupKey
          (PromoteChatMember.encode ⟨c, u, o1, o2, o3, o4, o5, o6, none, o8, o9, o10, o11⟩)
          "can_change_info" = none)
  ∧ (∀ (c u : Int) (o1 o2 o3 o4 o5 o6 o7 o9 o10 o11 : Option Bool),
        Json.lookupKey
          (PromoteChatMember.encode ⟨c, u, o1, o2, o3, o4, o5, o6, o7, none, o9, o10, o11⟩)
          "can_invite_users" = none)
  ∧ (∀ (c u : Int) (o1 o2 o3 o4 o5 o6 o7 o8 o10 o11 : Option Bool),
        Json.lookupKey
          (PromoteChatMember.encode ⟨c, u, o1, o2, o3, o4, o5, o6, o7, o8, none, o10, o11⟩)
          "can_pin_messages" = none)
  ∧ (∀ (c u : Int) (o1 o2 o3 o4 o5 o6 o7 o8 o9 o11 : Option Bool),
        Json.lookupKey
          (PromoteChatMember.encode ⟨c, u, o1, o2, o3, o4, o5, o6, o7, o8, o9, none, o11⟩)
          "can_manage_voice_chats" = none)
  ∧ (∀ (c u : Int) (o1 o2 o3 o4 o5 o6 o7 o8 o9 o10 : Option Bool),
        Json.lookupKey
          (PromoteChatMember.encode ⟨c, u, o1, o2, o3, o4, o5, o6, o7, o8, o9, o10, none⟩)
          "can_manage_chat" = none)
  ∧ (∀ c : Int, Json.lookupKey (SetChatDescription.encode ⟨c, none⟩) "description" = none)
  ∧ (∀ c : Int, Json.lookupKey (UnpinChatMessage.encode ⟨c, none⟩) "message_id" = none)
  ∧ (∀ (c : Int) (m : Option Int),
        Json.lookupKey (CreateChatInviteLink.encode ⟨c, none, m⟩) "expire_date" =
          some Json.null)
  ∧ (∀ (c : Int) (e : Option Int),
        Json.lookupKey (CreateChatInviteLink.encode ⟨c, e, none⟩) "member_limit" =
          some Json.null)
  ∧ (∀ (c : Int) (i : String) (m : Option Int),
        Json.lookupKey (EditChatInviteLink.encode ⟨c, i, none, m⟩) "expire_date" =
          some Json.null)
  ∧ (∀ (c : Int) (i : String) (e : Option Int),
        Json.lookupKey (EditChatInviteLink.encode ⟨c, i, e, none⟩) "member_limit" =
          some Json.null) := by
  refine ⟨?_, ?_, ?_, ?_, ?_, ?_, ?_, ?_, ?_, ?_, ?_, ?_, ?_, ?_, ?_, ?_, ?_, ?_, ?_, ?_⟩
  all_goals intros
  all_goals
    simp only [KickChatMember.encode, RestrictChatMember.encode, PromoteChatMember.encode,
      PromoteChatMember.encodeFields, SetChatDescription.encode, UnpinChatMessage.encode,
      CreateChatInviteLink.encode, EditChatInviteLink.encode, Json.lookupKey,
      jsonOpt, lookup_cons_self, lookup_cons_ne, lookup_optEntry_ne,
      lookup_optEntry_ne2, lookup_optEntry_absent, lookup_optEntry_absent2,
      lookup_nil, ne_eq, String.reduceEq, not_false_eq_true]

/-- C8: deserializing an UnbanChatMember from an object holding chat_id
and user_id but no only_if_banned key succeeds with only_if_banned set to
the default false, and serializing any UnbanChatMember always emits the
only_if_banned key, which carries no skip-when-absent attribute. -/
theorem claim_unban_default_flag :
    (∀ (l : List (String × Json)) (c u : Int),
        List.lookup "chat_id" l = some (.int c) →
        List.lookup "user_id" l = some (.int u) →
        List.lookup "only_if_banned" l = none →
        UnbanChatMember.decode (.obj l) = .ok ⟨c, u, false⟩)
  ∧ (∀ x : UnbanChatMember,
        Json.lookupKey (UnbanChatMember.encode x) "only_if_banned" =
          some (.bool x.only_if_banned)) := by
  constructor
  · intro l c u h1 h2 h3
    simp [UnbanChatMember.decode, reqInt, defBool, h1, h2, h3, exbind_ok]
  · intro x
    rfl

/-- C8 witness: the theorem applied to the concrete object holding only
chat_id 1 and user_id 2. -/
theorem claim_unban_default_flag_witness :
    UnbanChatMember.decode (.obj [("chat_id", .int 1), ("user_id", .int 2)]) =
      .ok ⟨1, 2, false⟩ :=
  claim_unban_default_flag.1 [("chat_id", .int 1), ("user_id", .int 2)] 1 2 rfl rfl rfl

/-- C9: deserializing a PinChatMessage from an object with no
disable_notification key fails with a decode error, since the field is a
required plain boolean with no default. -/
theorem claim_pin_requires_disable_notification :
    ∀ l : List (String × Json),
      List.lookup "disable_notification" l = none →
      isErr (PinChatMessage.decode (.obj l)) = true := by
  intro l h
  simp only [PinChatMessage.decode]
  rcases hc : reqInt l "chat_id" with e | c
  · simp [hc, isErr, exbind_ok, exbind_err, exmap_ok, exmap_err]
  · rcases hm : reqInt l "message_id" with e | m
    · simp [hc, hm, isErr, exbind_ok, exbind_err, exmap_ok, exmap_err]
    · simp [hc, hm, reqBool, h, isErr, exbind_ok, exbind_err, exmap_ok, exmap_err]

/-- C9 witness: the theorem applied to the concrete object holding
chat_id 1 and message_id 2 but no disable_notification key. -/
theorem claim_pin_requires_disable_notification_witness :
    isErr (PinChatMessage.decode (.obj [("chat_id", .int 1), ("message_id", .int 2)])) =
      true :=
  claim_pin_requires_disable_notification [("chat_id", .int 1), ("message_id", .int 2)] rfl

/-- C5: decoding an update payload (spec-modelled, since the update
module is outside the included sources).  With no populated
discriminating field decoding fails with a fixed error, deterministically
since decoding is a pure function; with a populated message field it
yields the Message variant; with message absent and callback_query
populated it yields the CallbackQuery variant; with both absent and poll
populated it yields the Poll variant.  The last three clauses together
give the documented first-match precedence policy when several fields
are populated. -/
theorem claim_update_discrimination :
    (∀ (l : List (String × Json)) (uid : Int),
        reqInt l "update_id" = .ok uid →
        populatedField l "message" = none →
        populatedField l "callback_query" = none →
        populatedField l "poll" = none →
        Update.decode (.obj l) = .error "no update content found")
  ∧ (∀ (l : List (String × Json)) (uid : Int) (j : Json),
        reqInt l "update_id" = .ok uid →
        populatedField l "message" = some j →
        Update.decode (.obj l) = .ok ⟨uid, .Message j⟩)
  ∧ (∀ (l : List (String × Json)) (uid : Int) (j : Json),
        reqInt l "update_id" = .ok uid →
        populatedField l "message" = none →
        populatedField l "callback_query" = some j →
        Update.decode (.obj l) = .ok ⟨uid, .CallbackQuery j⟩)
  ∧ (∀ (l : List (String × Json)) (uid : Int) (j : Json),
        reqInt l "update_id" = .ok uid →
        populatedField l "message" = none →
        populatedField l "callback_query" = none →
        populatedField l "poll" = some j →
        Update.decode (.obj l) = .ok ⟨uid, .Poll j⟩) := by
  refine ⟨?_, ?_, ?_, ?_⟩
  · intro l uid hu h1 h2 h3
    simp [Update.decode, hu, h1, h2, h3, exbind_ok]
  · intro l uid j hu h1
    simp [Update.decode, hu, h1, exbind_ok]
  · intro l uid j hu h1 h2
    simp [Update.decode, hu, h1, h2, exbind_ok]
  · intro l uid j hu h1 h2 h3
    simp [Update.decode, hu, h1, h2, h3, exbind_ok]

/-- C5 witness: the theorem applied to concrete payloads, one with no
populated discriminating field and one with a populated message field. -/
theorem claim_update_discrimination_witness :
    Update.decode (.obj [("update_id", .int 5)]) = .error "no update content found"
  ∧ Update.decode (.obj [("update_id", .int 5), ("message", .obj [])]) =
      .ok ⟨5, .Message (.obj [])⟩ :=
  ⟨claim_update_discrimination.1 [("update_id", .int 5)] 5 rfl rfl rfl rfl,
    claim_update_discrimination.2.1 [("update_id", .int 5), ("message", .obj [])] 5
      (.obj []) rfl rfl⟩

/-- C6: decoding a chat object (spec-modelled, since the chat model
module is outside the included sources) whose type field is the string
private yields the Private variant, and decoding one whose type field
holds an unrecognized string fails, because the Chat sum type has no
catch-all variant. -/
theorem claim_chat_type_discrimination :
    (∀ (l : List (String × Json)) (i : Int) (f n : Option String),
        List.lookup "type" l = some (.str "private") →
        reqInt l "id" = .ok i →
        optStr l "first_name" = .ok f →
        optStr l "last_name" = .ok n →
        Chat.decode (.obj l) = .ok (Chat.Private i f n))
  ∧ (∀ (l : List (String × Json)) (t : String),
        List.lookup "type" l = some (.str t) →
        t ≠ "private" → t ≠ "group" → t ≠ "supergroup" → t ≠ "channel" →
        Chat.decode (.obj l) = .error ("unknown chat type " ++ t)) := by
  constructor
  · intro l i f n ht hi hf hn
    simp [Chat.decode, ht, hi, hf, hn, exbind_ok]
  · intro l t ht h1 h2 h3 h4
    simp [Chat.decode, ht, h1, h2, h3, h4]

/-- C6 witness: the theorem applied to a concrete private chat object
and to a concrete object with an unrecognized chat type. -/
theorem claim_chat_type_discrimination_witness :
    Chat.decode (.obj [("type", .str "private"), ("id", .int 7)]) =
      .ok (Chat.Private 7 none none)
  ∧ Chat.decode (.obj [("type", .str "secret"), ("id", .int 7)]) =
      .error "unknown chat type secret" :=
  ⟨claim_chat_type_discrimination.1 [("type", .str "private"), ("id", .int 7)] 7 none none
      rfl rfl rfl rfl,
    claim_chat_type_discrimination.2 [("type", .str "secret"), ("id", .int 7)] "secret"
      rfl (by decide) (by decide) (by decide) (by decide)⟩

/-- C10: for every request struct, deserialization ignores unknown keys:
appending entries whose keys are not field names of the struct to any
object leaves the decoding result unchanged. -/
theorem claim_unknown_keys_ignored :
    (∀ (l e : List (String × Json)),
      (∀ p ∈ e, p.fst ∉ (["chat_id", "user_id", "until_date", "revoke_messages"] : List String)) →
      KickChatMember.decode (.obj (l ++ e)) = KickChatMember.decode (.obj l))
  ∧ (∀ (l e : List (String × Json)),
      (∀ p ∈ e, p.fst ∉ (["chat_id"] : List String)) →
      GetChat.decode (.obj (l ++ e)) = GetChat.decode (.obj l))
  ∧ (∀ (l e : List (String × Json)),
      (∀ p ∈ e, p.fst ∉ (["chat_id", "user_id", "only_if_banned"] : List String)) →
      UnbanChatMember.decode (.obj (l ++ e)) = UnbanChatMember.decode (.obj l))
  ∧ (∀ (l e : List (String × Json)),
      (∀ p ∈ e, p.fst ∉ (["chat_id", "user_id", "permissions", "until_date"] : List String)) →
      RestrictChatMember.decode (.obj (l ++ e)) = RestrictChatMember.decode (.obj l))
  ∧ (∀ (l e : List (String × Json)),
      (∀ p ∈ e, p.fst ∉ (["chat_id", "user_id", "is_anonymous", "can_post_messages", "can_edit_messages", "can_delete_messages", "can_restrict_members", "can_promote_members", "can_change_info", "can_invite_users", "can_pin_messages", "can_manage_voice_chats", "can_manage_chat"] : List String)) →
      PromoteChatMember.decode (.obj (l ++ e)) = PromoteChatMember.decode (.obj l))
  ∧ (∀ (l e : List (String × Json)),
      (∀ p ∈ e, p.fst ∉ (["chat_id", "user_id", "custom_title"] : List String)) →
      SetChatAdministratorCustomTitle.decode (.obj (l ++ e)) = SetChatAdministratorCustomTitle.decode (.obj l))
  ∧ (∀ (l e : List (String × Json)),
      (∀ p ∈ e, p.fst ∉ (["chat_id", "permissions"] : List String)) →
      SetChatPermissions.decode (.obj (l ++ e)) = SetChatPermissions.decode (.obj l))
  ∧ (∀ (l e : List (String × Json)),
      (∀ p ∈ e, p.fst ∉ (["chat_id"] : List String)) →
      ExportChatInviteLink.decode (.obj (l ++ e)) = ExportChatInviteLink.decode (.obj l))
  ∧ (∀ (l e : List (String × Json)),
      (∀ p ∈ e, p.fst ∉ (["chat_id", "photo"] : List String)) →
      SetChatPhoto.decode (.obj (l ++ e)) = SetChatPhoto.decode (.obj l))
  ∧ (∀ (l e : List (String × Json)),
      (∀ p ∈ e, p.fst ∉ (["chat_id"] : List String)) →
      DeleteChatPhoto.decode (.obj (l ++ e)) = DeleteChatPhoto.decode (.obj l))
  ∧ (∀ (l e : List (String × Json)),
      (∀ p ∈ e, p.fst ∉ (["chat_id", "title"] : List String)) →
      SetChatTitle.decode (.obj (l ++ e)) = SetChatTitle.decode (.obj l))
  ∧ (∀ (l e : List (String × Json)),
      (∀ p ∈ e, p.fst ∉ (["chat_id", "description"] : List String)) →
      SetChatDescription.decode (.obj (l ++ e)) = SetChatDescription.decode (.obj l))
  ∧ (∀ (l e : List (String × Json)),
      (∀ p ∈ e, p.fst ∉ (["chat_id", "message_id", "disable_notification"] : List String)) →
      PinChatMessage.decode (.obj (l ++ e)) = PinChatMessage.decode (.obj l))
  ∧ (∀ (l e : List (String × Json)),
      (∀ p ∈ e, p.fst ∉ (["chat_id", "message_id"] : List String)) →
      UnpinChatMessage.decode (.obj (l ++ e)) = UnpinChatMessage.decode (.obj l))
  ∧ (∀ (l e : List (String × Json)),
      (∀ p ∈ e, p.fst ∉ (["chat_id"] : List String)) →
      UnpinAllChatMessages.decode (.obj (l ++ e)) = UnpinAllChatMessages.decode (.obj l))
  ∧ (∀ (l e : List (String × Json)),
      (∀ p ∈ e, p.fst ∉ (["chat_id"] : List String)) →
      LeaveChat.decode (.obj (l ++ e)) = LeaveChat.decode (.obj l))
  ∧ (∀ (l e : List (String × Json)),
      (∀ p ∈ e, p.fst ∉ (["chat_id"] : List String)) →
      GetChatAdministrators.decode (.obj (l ++ e)) = GetChatAdministrators.decode (.obj l))
  ∧ (∀ (l e : List (String × Json)),
      (∀ p ∈ e, p.fst ∉ (["chat_id"] : List String)) →
      GetChatMembersCount.decode (.obj (l ++ e)) = GetChatMembersCount.decode (.obj l))
  ∧ (∀ (l e : List (String × Json)),
      (∀ p ∈ e, p.fst ∉ (["chat_id", "user_id"] : List String)) →
      GetChatMember.decode (.obj (l ++ e)) = GetChatMember.decode (.obj l))
  ∧ (∀ (l e : List (String × Json)),
      (∀ p ∈ e, p.fst ∉ (["chat_id", "sticker_set_name"] : List String)) →
      SetChatStickerSet.decode (.obj (l ++ e)) = SetChatStickerSet.decode (.obj l))
  ∧ (∀ (l e : List (String × Json)),
      (∀ p ∈ e, p.fst ∉ (["chat_id"] : List String)) →
      DeleteChatStickerSet.decode (.obj (l ++ e)) = DeleteChatStickerSet.decode (.obj l))
  ∧ (∀ (l e : List (String × Json)),
      (∀ p ∈ e, p.fst ∉ (["chat_id", "expire_date", "member_limit"] : List String)) →
      CreateChatInviteLink.decode (.obj (l ++ e)) = CreateChatInviteLink.decode (.obj l))
  ∧ (∀ (l e : List (String × Json)),
      (∀ p ∈ e, p.fst ∉ (["chat_id", "invite_link", "expire_date", "member_limit"] : List String)) →
      EditChatInviteLink.decode (.obj (l ++ e)) = EditChatInviteLink.decode (.obj l))
  ∧ (∀ (l e : List (String × Json)),
      (∀ p ∈ e, p.fst ∉ (["chat_id", "invite_link"] : List String)) →
      RevokeChatInviteLink.decode (.obj (l ++ e)) = RevokeChatInviteLink.decode (.obj l)) := by
  refine ⟨?_, ?_, ?_, ?_, ?_, ?_, ?_, ?_, ?_, ?_, ?_, ?_, ?_, ?_, ?_, ?_, ?_, ?_, ?_, ?_, ?_, ?_, ?_, ?_⟩
  · intro l e h
    simp only [KickChatMember.decode,
      reqInt_append (key_ne_of_not_mem "chat_id" h (by decide)),
      reqInt_append (key_ne_of_not_mem "user_id" h (by decide)),
      optInt_append (key_ne_of_not_mem "until_date" h (by decide)),
      optBool_append (key_ne_of_not_mem "revoke_messages" h (by decide))]
  · intro l e h
    simp only [GetChat.decode,
      reqInt_append (key_ne_of_not_mem "chat_id" h (by decide))]
  · intro l e h
    simp only [UnbanChatMember.decode,
      reqInt_append (key_ne_of_not_mem "chat_id" h (by decide)),
      reqInt_append (key_ne_of_not_mem "user_id" h (by decide)),
      defBool_append (key_ne_of_not_mem "only_if_banned" h (by decide))]
  · intro l e h
    simp only [RestrictChatMember.decode,
      reqInt_append (key_ne_of_not_mem "chat_id" h (by decide)),
      reqInt_append (key_ne_of_not_mem "user_id" h (by decide)),
      reqPerm_append (key_ne_of_not_mem "permissions" h (by decide)),
      optInt_append (key_ne_of_not_mem "until_date" h (by decide))]
  · intro l e h
    simp only [PromoteChatMember.decode,
      reqInt_append (key_ne_of_not_mem "chat_id" h (by decide)),
      reqInt_append (key_ne_of_not_mem "user_id" h (by decide)),
      optBool_append (key_ne_of_not_mem "is_anonymous" h (by decide)),
      optBool_append (key_ne_of_not_mem "can_post_messages" h (by decide)),
      optBool_append (key_ne_of_not_mem "can_edit_messages" h (by decide)),
      optBool_append (key_ne_of_not_mem "can_delete_messages" h (by decide)),
      optBool_append (key_ne_of_not_mem "can_restrict_members" h (by decide)),
      optBool_append (key_ne_of_not_mem "can_promote_members" h (by decide)),
      optBool_append (key_ne_of_not_mem "can_change_info" h (by decide)),
      optBool_append (key_ne_of_not_mem "can_invite_users" h (by decide)),
      optBool_append (key_ne_of_not_mem "can_pin_messages" h (by decide)),
      optBool_append (key_ne_of_not_mem "can_manage_voice_chats" h (by decide)),
      optBool_append (key_ne_of_not_mem "can_manage_chat" h (by decide))]
  · intro l e h
    simp only [SetChatAdministratorCustomTitle.decode,
      reqInt_append (key_ne_of_not_mem "chat_id" h (by decide)),
      reqInt_append (key_ne_of_not_mem "user_id" h (by decide)),
      reqStr_append (key_ne_of_not_mem "custom_title" h (by decide))]
  · intro l e h
    simp only [SetChatPermissions.decode,
      reqInt_append (key_ne_of_not_mem "chat_id" h (by decide)),
      reqPerm_append (key_ne_of_not_mem "permissions" h (by decide))]
  · intro l e h
    simp only [ExportChatInviteLink.decode,
      reqInt_append (key_ne_of_not_mem "chat_id" h (by decide))]
  · intro l e h
    simp only [SetChatPhoto.decode,
      reqInt_append (key_ne_of_not_mem "chat_id" h (by decide)),
      reqFile_append (key_ne_of_not_mem "photo" h (by decide))]
  · intro l e h
    simp only [DeleteChatPhoto.decode,
      reqInt_append (key_ne_of_not_mem "chat_id" h (by decide))]
  · intro l e h
    simp only [SetChatTitle.decode,
      reqInt_append (key_ne_of_not_mem "chat_id" h (by decide)),
      reqStr_append (key_ne_of_not_mem "title" h (by decide))]
  · intro l e h
    simp only [SetChatDescription.decode,
      reqInt_append (key_ne_of_not_mem "chat_id" h (by decide)),
      optStr_append (key_ne_of_not_mem "description" h (by decide))]
  · intro l e h
    simp only [PinChatMessage.decode,
      reqInt_append (key_ne_of_not_mem "chat_id" h (by decide)),
      reqInt_append (key_ne_of_not_mem "message_id" h (by decide)),
      reqBool_append (key_ne_of_not_mem "disable_notification" h (by decide))]
  · intro l e h
    simp only [UnpinChatMessage.decode,
      reqInt_append (key_ne_of_not_mem "chat_id" h (by decide)),
      optInt_append (key_ne_of_not_mem "message_id" h (by decide))]
  · intro l e h
    simp only [UnpinAllChatMessages.decode,
      reqInt_append (key_ne_of_not_mem "chat_id" h (by decide))]
  · intro l e h
    simp only [LeaveChat.decode,
      reqInt_append (key_ne_of_not_mem "chat_id" h (by decide))]
  · intro l e h
    simp only [GetChatAdministrators.decode,
      reqInt_append (key_ne_of_not_mem "chat_id" h (by decide))]
  · intro l e h
    simp only [GetChatMembersCount.decode,
      reqInt_append (key_ne_of_not_mem "chat_id" h (by decide))]
  · intro l e h
    simp only [GetChatMember.decode,
      reqInt_append (key_ne_of_not_mem "chat_id" h (by decide)),
      reqInt_append (key_ne_of_not_mem "user_id" h (by decide))]
  · intro l e h
    simp only [SetChatStickerSet.decode,
      reqInt_append (key_ne_of_not_mem "chat_id" h (by decide)),
      reqStr_append (key_ne_of_not_mem "sticker_set_name" h (by decide))]
  · intro l e h
    simp only [DeleteChatStickerSet.decode,
      reqInt_append (key_ne_of_not_mem "chat_id" h (by decide))]
  · intro l e h
    simp only [CreateChatInviteLink.decode,
      reqInt_append (key_ne_of_not_mem "chat_id" h (by decide)),
      optInt_append (key_ne_of_not_mem "expire_date" h (by decide)),
      optInt_append (key_ne_of_not_mem "member_limit" h (by decide))]
  · intro l e h
    simp only [EditChatInviteLink.decode,
      reqInt_append (key_ne_of_not_mem "chat_id" h (by decide)),
      reqStr_append (key_ne_of_not_mem "invite_link" h (by decide)),
      optInt_append (key_ne_of_not_mem "expire_date" h (by decide)),
      optInt_append (key_ne_of_not_mem "member_limit" h (by decide))]
  · intro l e h
    simp only [RevokeChatInviteLink.decode,
      reqInt_append (key_ne_of_not_mem "chat_id" h (by decide)),
      reqStr_append (key_ne_of_not_mem "invite_link" h (by decide))]

/-- C10 witness: the theorem applied to the two cited structs at
concrete objects extended with an unrecognized key. -/
theorem claim_unknown_keys_ignored_witness :
    KickChatMember.decode
        (.obj ([("chat_id", Json.int 1), ("user_id", Json.int 2)] ++ [("zzz", Json.null)])) =
      KickChatMember.decode (.obj [("chat_id", Json.int 1), ("user_id", Json.int 2)])
  ∧ GetChat.decode (.obj ([("chat_id", Json.int 3)] ++ [("extra", Json.str "x")])) =
      GetChat.decode (.obj [("chat_id", Json.int 3)]) :=
  ⟨claim_unknown_keys_ignored.1 _ _ (by decide),
    claim_unknown_keys_ignored.2.1 _ _ (by decide)⟩
